import Mathlib

set_option autoImplicit false

/-!
Verification of the terraform-provider-clerk repository against its
natural-language specification.  The Go sources under internal/client,
internal/provider, internal/datasources and internal/resources are shallowly
embedded as Lean definitions; machine behaviour (HTTP transport, the vendor
SDK, JSON decoding) is abstracted as explicit oracle parameters, and every
operation that may issue remote calls also returns the list of calls it
issued, so that statements about which network requests happen are provable.
-/

namespace Clerk

/-! ## Client registry (internal/client/client.go)

The Go code keeps a map from the string appID ++ "/" ++ environment to a
vendor-SDK ClientConfig, guarded by a read/write lock.  The lock serialises
accesses, so the registry is modelled as a sequential association list in
which an insert prepends (shadowing earlier entries, which is exactly the
overwrite semantics of a Go map write). -/

/-- clerk.ClientConfig, restricted to the field the provider sets:
Key is a pointer to the Backend API secret key (clerk.String s yields a
non-nil pointer to s), modelled as Option String. -/
structure ClientConfig where
  key : Option String
deriving Repr, DecidableEq

/-- The backendClients map of ClerkClient. -/
abbrev Registry := List (String × ClientConfig)

/-- backendClientKey returns the map key for a given app/environment pair. -/
def backendClientKey (appID environment : String) : String :=
  appID ++ "/" ++ environment

/-- Go map lookup: the first (most recently written) entry for the key. -/
def findConfig : Registry → String → Option ClientConfig
  | [], _ => none
  | (k, c) :: rest, key => if k = key then some c else findConfig rest key

/-- RegisterBackendClient registers a Backend API client configuration for a
specific application and environment combination. -/
def RegisterBackendClient (reg : Registry) (appID environment secretKey : String) :
    Registry :=
  (backendClientKey appID environment, { key := some secretKey }) :: reg

/-- The error text produced by GetBackendConfig for a missing entry
(fmt.Errorf with %q quoting both arguments). -/
def noBackendClientMsg (appID environment : String) : String :=
  "no backend client registered for application \"" ++ appID ++
    "\" environment \"" ++ environment ++ "\""

/-- GetBackendConfig returns the Backend API client configuration for the
given application and environment, or an error if none is registered. -/
def GetBackendConfig (reg : Registry) (appID environment : String) :
    Except String ClientConfig :=
  match findConfig reg (backendClientKey appID environment) with
  | some config => .ok config
  | none => .error (noBackendClientMsg appID environment)

/-- A run of RegisterBackendClient calls applied in order to a fresh client
(NewClerkClient starts with an empty map).  Each list element is
(appID, environment, secretKey). -/
def registerAll (ops : List (String × String × String)) : Registry :=
  ops.foldl (fun reg op => RegisterBackendClient reg op.1 op.2.1 op.2.2) []

/-! Helper lemmas about the registry. -/

theorem findConfig_registerAll_aux (ops : List (String × String × String))
    (reg : Registry) (key : String)
    (hops : ∀ op ∈ ops, backendClientKey op.1 op.2.1 ≠ key)
    (hreg : findConfig reg key = none) :
    findConfig (ops.foldl (fun r op => RegisterBackendClient r op.1 op.2.1 op.2.2) reg)
      key = none := by
  induction ops generalizing reg with
  | nil => simpa using hreg
  | cons op rest ih =>
    simp only [List.foldl_cons]
    apply ih
    · intro o ho
      exact hops o (List.mem_cons_of_mem _ ho)
    · have hne : backendClientKey op.1 op.2.1 ≠ key := hops op (List.mem_cons_self op rest)
      simp [RegisterBackendClient, findConfig, hne, hreg]

theorem findConfig_register_self (reg : Registry) (a e k : String) :
    findConfig (RegisterBackendClient reg a e k) (backendClientKey a e) =
      some { key := some k } := by
  simp [RegisterBackendClient, findConfig]

/-! ## Terraform diagnostics and framework values -/

/-- Severity of a Terraform diagnostic (AddError, AddWarning). -/
inductive Severity where
  | error
  | warning
deriving Repr, DecidableEq

/-- A diagnostic as produced by resp.Diagnostics.AddError / AddWarning. -/
structure Diagnostic where
  severity : Severity
  summary : String
  detail : String
deriving Repr, DecidableEq

/-- A terraform-plugin-framework attribute value: null, unknown, or a known
value.  IsNull / IsUnknown test the first two constructors; ValueString and
friends return the zero value on null/unknown. -/
inductive TFVal (α : Type) where
  | null
  | unknown
  | value (a : α)
deriving Repr, DecidableEq

/-- types.String ValueString(): the value, or "" when null or unknown. -/
def TFVal.valueString : TFVal String → String
  | .value s => s
  | _ => ""

/-- Go-style field extraction used by applyInstanceSettings and friends:
a field contributes a parameter exactly when it is neither null nor unknown. -/
def TFVal.toParam {α : Type} : TFVal α → Option α
  | .value a => some a
  | _ => none

/-! ## Vendor SDK parameter and result types (clerk-sdk-go/v2)

Only the fields the provider reads or writes are modelled.  Go pointer
fields (set only when non-nil) are Option. -/

/-- instancesettings.UpdateParams. -/
structure UpdateParams where
  testMode : Option Bool
  hibp : Option Bool
  enhancedEmailDeliverability : Option Bool
  supportEmail : Option String
  clerkJSVersion : Option String
  urlBasedSessionSyncing : Option Bool
  developmentOrigin : Option String
deriving Repr, DecidableEq

/-- instancesettings.UpdateRestrictionsParams. -/
structure UpdateRestrictionsParams where
  allowlist : Option Bool
  blocklist : Option Bool
  blockEmailSubaddresses : Option Bool
  blockDisposableEmailDomains : Option Bool
  ignoreDotsForGmailAddresses : Option Bool
deriving Repr, DecidableEq

/-- instancesettings.UpdateOrganizationSettingsParams. -/
structure UpdateOrganizationSettingsParams where
  enabled : Option Bool
  maxAllowedMemberships : Option Int
  creatorRoleID : Option String
  adminDeleteEnabled : Option Bool
  domainsEnabled : Option Bool
  domainsEnrollmentModes : Option (List String)
  domainsDefaultRoleID : Option String
deriving Repr, DecidableEq

/-- clerk.InstanceRestrictions (response of PATCH /instance/restrictions). -/
structure InstanceRestrictions where
  allowlist : Bool
  blocklist : Bool
  blockEmailSubaddresses : Bool
  blockDisposableEmailDomains : Bool
  ignoreDotsForGmailAddresses : Bool
deriving Repr, DecidableEq

/-- clerk.OrganizationSettings (response of PATCH /instance/organization_settings). -/
structure OrganizationSettings where
  enabled : Bool
  maxAllowedMemberships : Int
  creatorRole : String
  adminDeleteEnabled : Bool
  domainsEnabled : Bool
  domainsEnrollmentModes : List String
  domainsDefaultRole : String
deriving Repr, DecidableEq

/-- organization.CreateParams (fields used by the provider). -/
structure OrgCreateParams where
  name : Option String
  slug : Option String
  maxAllowedMemberships : Option Int
deriving Repr, DecidableEq

/-- organization.UpdateParams (fields used by the provider). -/
structure OrgUpdateParams where
  name : Option String
  slug : Option String
  maxAllowedMemberships : Option Int
  adminDeleteEnabled : Option Bool
deriving Repr, DecidableEq

/-- clerk.Organization. -/
structure Organization where
  id : String
  name : String
  slug : String
  maxAllowedMemberships : Int
  adminDeleteEnabled : Bool
  createdAt : Int
  updatedAt : Int
deriving Repr, DecidableEq

/-- clerk.DeletedResource. -/
structure DeletedResource where
  id : String
  deleted : Bool
deriving Repr, DecidableEq

/-! ## Backend API wrappers (internal/client/backend_api.go and the
organization wrapper file)

Each wrapper first resolves the registry entry.  The HTTP round-trips the
vendor SDK would perform are abstracted as a BackendRemote oracle; every
wrapper returns the list of SDK calls it issued so that the absence of
network traffic is a provable statement. -/

/-- One call issued to the Clerk Backend API through the vendor SDK,
recorded together with the ClientConfig (secret key) it was issued with. -/
inductive BackendCall where
  | updateInstanceSettings (config : ClientConfig) (params : UpdateParams)
  | updateRestrictions (config : ClientConfig) (params : UpdateRestrictionsParams)
  | updateOrganizationSettings (config : ClientConfig)
      (params : UpdateOrganizationSettingsParams)
  | orgCreate (config : ClientConfig) (params : OrgCreateParams)
  | orgGet (config : ClientConfig) (idOrSlug : String)
  | orgUpdate (config : ClientConfig) (id : String) (params : OrgUpdateParams)
  | orgDelete (config : ClientConfig) (id : String)
deriving Repr, DecidableEq

/-- The remote behaviour of the Backend API, one function per endpoint the
provider uses.  instancesettings.Client.Update returns only an error
(Option String, none on success); the others return a value or an error. -/
structure BackendRemote where
  updateInstance : ClientConfig → UpdateParams → Option String
  updateRestrictions : ClientConfig → UpdateRestrictionsParams →
    Except String InstanceRestrictions
  updateOrgSettings : ClientConfig → UpdateOrganizationSettingsParams →
    Except String OrganizationSettings
  orgCreate : ClientConfig → OrgCreateParams → Except String Organization
  orgGet : ClientConfig → String → Except String Organization
  orgUpdate : ClientConfig → String → OrgUpdateParams → Except String Organization
  orgDelete : ClientConfig → String → Except String DeletedResource

/-- The wrapping applied to a registry miss by GetInstanceSettingsClient and
by each organization wrapper: fmt.Errorf("resolving backend client for
%s/%s: %w", appID, environment, err). -/
def resolvingMsg (appID environment inner : String) : String :=
  "resolving backend client for " ++ appID ++ "/" ++ environment ++ ": " ++ inner

/-- GetInstanceSettingsClient: resolves the registry entry, wrapping a miss. -/
def GetInstanceSettingsClient (reg : Registry) (appID environment : String) :
    Except String ClientConfig :=
  match GetBackendConfig reg appID environment with
  | .error err => .error (resolvingMsg appID environment err)
  | .ok config => .ok config

/-- UpdateInstanceSettings updates the general settings of a Clerk instance.
Returns (error if any, SDK calls issued). -/
def UpdateInstanceSettings (remote : BackendRemote) (reg : Registry)
    (appID environment : String) (params : UpdateParams) :
    Option String × List BackendCall :=
  match GetInstanceSettingsClient reg appID environment with
  | .error err => (some err, [])
  | .ok config =>
      (remote.updateInstance config params, [.updateInstanceSettings config params])

/-- UpdateInstanceRestrictions updates the restriction settings of a Clerk
instance. -/
def UpdateInstanceRestrictions (remote : BackendRemote) (reg : Registry)
    (appID environment : String) (params : UpdateRestrictionsParams) :
    Except String InstanceRestrictions × List BackendCall :=
  match GetInstanceSettingsClient reg appID environment with
  | .error err => (.error err, [])
  | .ok config =>
      (remote.updateRestrictions config params, [.updateRestrictions config params])

/-- UpdateOrganizationSettings updates the organization settings of a Clerk
instance. -/
def UpdateOrganizationSettings (remote : BackendRemote) (reg : Registry)
    (appID environment : String) (params : UpdateOrganizationSettingsParams) :
    Except String OrganizationSettings × List BackendCall :=
  match GetInstanceSettingsClient reg appID environment with
  | .error err => (.error err, [])
  | .ok config =>
      (remote.updateOrgSettings config params,
        [.updateOrganizationSettings config params])

/-- CreateOrganization creates an organization in the given
application/environment. -/
def CreateOrganization (remote : BackendRemote) (reg : Registry)
    (appID environment : String) (params : OrgCreateParams) :
    Except String Organization × List BackendCall :=
  match GetBackendConfig reg appID environment with
  | .error err => (.error (resolvingMsg appID environment err), [])
  | .ok config => (remote.orgCreate config params, [.orgCreate config params])

/-- GetOrganization fetches an organization by ID or slug. -/
def GetOrganization (remote : BackendRemote) (reg : Registry)
    (appID environment idOrSlug : String) :
    Except String Organization × List BackendCall :=
  match GetBackendConfig reg appID environment with
  | .error err => (.error (resolvingMsg appID environment err), [])
  | .ok config => (remote.orgGet config idOrSlug, [.orgGet config idOrSlug])

/-- UpdateOrganization updates an organization by ID. -/
def UpdateOrganization (remote : BackendRemote) (reg : Registry)
    (appID environment id : String) (params : OrgUpdateParams) :
    Except String Organization × List BackendCall :=
  match GetBackendConfig reg appID environment with
  | .error err => (.error (resolvingMsg appID environment err), [])
  | .ok config => (remote.orgUpdate config id params, [.orgUpdate config id params])

/-- DeleteOrganization deletes an organization by ID. -/
def DeleteOrganization (remote : BackendRemote) (reg : Registry)
    (appID environment id : String) :
    Except String DeletedResource × List BackendCall :=
  match GetBackendConfig reg appID environment with
  | .error err => (.error (resolvingMsg appID environment err), [])
  | .ok config => (remote.orgDelete config id, [.orgDelete config id])

/-! ## Platform API (internal/client/platform_api.go) -/

def platformAPIBaseURL : String := "https://api.clerk.com/v1"

/-- An HTTP response as observed by platformRequest after a successful
round-trip: the status code and the fully read body. -/
structure HttpResponse where
  statusCode : Int
  body : String
deriving Repr, DecidableEq

/-- Errors a Platform API operation can return: the typed PlatformAPIError
(non-2xx status plus raw body) or a wrapped transport/decoding failure. -/
inductive PlatformError where
  | apiError (statusCode : Int) (body : String)
  | wrapped (msg : String)
deriving Repr, DecidableEq

/-- The Error() string of *PlatformAPIError (without the %d/%s rendering of
the status, which is kept structured). -/
def PlatformError.isAPIError : PlatformError → Bool
  | .apiError _ _ => true
  | .wrapped _ => false

/-- The status/body dispatch at the end of platformRequest: a status outside
[200, 300) becomes a *PlatformAPIError carrying that status and the raw
body; otherwise the body is returned.  The transport steps before this
point (request construction, Do, ReadAll) are assumed to have succeeded,
which is the premise of every claim about this function. -/
def platformRequest (resp : HttpResponse) : Except PlatformError String :=
  if resp.statusCode < 200 ∨ 300 ≤ resp.statusCode then
    .error (.apiError resp.statusCode resp.body)
  else
    .ok resp.body

/-- PlatformApplicationInstance. -/
structure PlatformApplicationInstance where
  instanceID : String
  environmentType : String
  publishableKey : String
  secretKey : String
deriving Repr, DecidableEq

/-- PlatformApplicationResponse. -/
structure PlatformApplicationResponse where
  applicationID : String
  instances : List PlatformApplicationInstance
deriving Repr, DecidableEq

/-- A JSON decoder for the response body (encoding/json is external code;
none models an unmarshal failure). -/
abbrev Decoder (α : Type) := String → Option α

/-- GetApplication: body dispatch of the single Platform API round-trip.
A platformRequest error is propagated unchanged with no data. -/
def GetApplication (decode : Decoder PlatformApplicationResponse)
    (resp : HttpResponse) : Except PlatformError PlatformApplicationResponse :=
  match platformRequest resp with
  | .error e => .error e
  | .ok body =>
      match decode body with
      | some result => .ok result
      | none => .error (.wrapped "unmarshaling get response")

/-- CreateApplication: body dispatch of the single Platform API round-trip. -/
def CreateApplication (decode : Decoder PlatformApplicationResponse)
    (resp : HttpResponse) : Except PlatformError PlatformApplicationResponse :=
  match platformRequest resp with
  | .error e => .error e
  | .ok body =>
      match decode body with
      | some result => .ok result
      | none => .error (.wrapped "unmarshaling create response")

/-- UpdateApplication: body dispatch of the single Platform API round-trip. -/
def UpdateApplication (decode : Decoder PlatformApplicationResponse)
    (resp : HttpResponse) : Except PlatformError PlatformApplicationResponse :=
  match platformRequest resp with
  | .error e => .error e
  | .ok body =>
      match decode body with
      | some result => .ok result
      | none => .error (.wrapped "unmarshaling update response")

/-- PlatformDeletedObjectResponse. -/
structure PlatformDeletedObjectResponse where
  deleted : Bool
  object : String
  id : String
deriving Repr, DecidableEq

/-- DeleteApplication: body dispatch of the single Platform API round-trip. -/
def DeleteApplication (decode : Decoder PlatformDeletedObjectResponse)
    (applicationID : String) (resp : HttpResponse) : Option PlatformError :=
  match platformRequest resp with
  | .error e => some e
  | .ok body =>
      match decode body with
      | none => some (.wrapped "unmarshaling delete response")
      | some result =>
          if result.deleted then none
          else some (.wrapped ("application " ++ applicationID ++ " was not deleted"))

/-- ListApplications: body dispatch of the single Platform API round-trip. -/
def ListApplications (decode : Decoder (List PlatformApplicationResponse))
    (resp : HttpResponse) : Except PlatformError (List PlatformApplicationResponse) :=
  match platformRequest resp with
  | .error e => .error e
  | .ok body =>
      match decode body with
      | some result => .ok result
      | none => .error (.wrapped "unmarshaling list response")

/-! ### Request construction (for the query-parameter claim)

platformRequest builds the request from method, path, optional body and an
optional query map; the query map is nil unless includeSecretKeys is true,
and RawQuery is set only for a non-nil map. -/

/-- The outgoing HTTP request platformRequest constructs.  query is the
encoded query-parameter list: empty exactly when the Go query map is nil. -/
structure PlatformHttpRequest where
  method : String
  url : String
  hasJSONBody : Bool
  query : List (String × String)
deriving Repr, DecidableEq

/-- The query map GetApplication and ListApplications pass to
platformRequest: nil (empty) unless includeSecretKeys. -/
def secretKeysQuery (includeSecretKeys : Bool) : List (String × String) :=
  if includeSecretKeys then [("include_secret_keys", "true")] else []

/-- The request GetApplication issues. -/
def GetApplicationRequest (applicationID : String) (includeSecretKeys : Bool) :
    PlatformHttpRequest :=
  { method := "GET"
    url := platformAPIBaseURL ++ "/platform/applications/" ++ applicationID
    hasJSONBody := false
    query := secretKeysQuery includeSecretKeys }

/-- The request ListApplications issues. -/
def ListApplicationsRequest (includeSecretKeys : Bool) : PlatformHttpRequest :=
  { method := "GET"
    url := platformAPIBaseURL ++ "/platform/applications"
    hasJSONBody := false
    query := secretKeysQuery includeSecretKeys }

/-! ## Environment resource (internal/resources environment file) -/

/-- RestrictionsModel. -/
structure RestrictionsModel where
  allowlist : TFVal Bool
  blocklist : TFVal Bool
  blockEmailSubaddresses : TFVal Bool
  blockDisposableEmailDomains : TFVal Bool
  ignoreDotsForGmailAddresses : TFVal Bool
deriving Repr, DecidableEq

/-- OrganizationSettingsModel. -/
structure OrganizationSettingsModel where
  enabled : TFVal Bool
  maxAllowedMemberships : TFVal Int
  creatorRoleID : TFVal String
  adminDeleteEnabled : TFVal Bool
  domainsEnabled : TFVal Bool
  domainsEnrollmentModes : TFVal (List String)
  domainsDefaultRoleID : TFVal String
deriving Repr, DecidableEq

/-- EnvironmentResourceModel. -/
structure EnvironmentResourceModel where
  id : TFVal String
  applicationID : TFVal String
  environment : TFVal String
  testMode : TFVal Bool
  hibp : TFVal Bool
  enhancedEmailDeliverability : TFVal Bool
  supportEmail : TFVal String
  clerkJSVersion : TFVal String
  urlBasedSessionSyncing : TFVal Bool
  developmentOrigin : TFVal String
  restrictions : TFVal RestrictionsModel
  organizationSettings : TFVal OrganizationSettingsModel
deriving Repr, DecidableEq

/-- EnvironmentResource.Read: the Clerk Backend API has no GET endpoints for
instance settings, so Read writes the prior state back unchanged and issues
no Backend API call (the returned call list is the complete trace). -/
def EnvironmentRead (state : EnvironmentResourceModel) :
    EnvironmentResourceModel × List BackendCall :=
  (state, [])

/-- The params applyOrganizationSettings builds from the plan: each field is
sent exactly when it is neither null nor unknown. -/
def buildOrgSettingsParams (m : OrganizationSettingsModel) :
    UpdateOrganizationSettingsParams :=
  { enabled := m.enabled.toParam
    maxAllowedMemberships := m.maxAllowedMemberships.toParam
    creatorRoleID := m.creatorRoleID.toParam
    adminDeleteEnabled := m.adminDeleteEnabled.toParam
    domainsEnabled := m.domainsEnabled.toParam
    domainsEnrollmentModes := m.domainsEnrollmentModes.toParam
    domainsDefaultRoleID := m.domainsDefaultRoleID.toParam }

/-- applyOrganizationSettings: skips a null/unknown block, otherwise PATCHes
the built params and rewrites the plan block from the API response, keeping
the configured creator_role_id and domains_default_role_id (the API answers
with role keys, not role IDs). -/
def applyOrganizationSettings (remote : BackendRemote) (reg : Registry)
    (appID env : String) (planOrg : TFVal OrganizationSettingsModel) :
    Except Diagnostic (TFVal OrganizationSettingsModel) × List BackendCall :=
  match planOrg with
  | .null => (.ok planOrg, [])
  | .unknown => (.ok planOrg, [])
  | .value m =>
      match UpdateOrganizationSettings remote reg appID env
          (buildOrgSettingsParams m) with
      | (.error err, calls) =>
          (.error ⟨.error, "Error updating organization settings", err⟩, calls)
      | (.ok result, calls) =>
          (.ok (.value
            { enabled := .value result.enabled
              maxAllowedMemberships := .value result.maxAllowedMemberships
              creatorRoleID := m.creatorRoleID
              adminDeleteEnabled := .value result.adminDeleteEnabled
              domainsEnabled := .value result.domainsEnabled
              domainsEnrollmentModes := .value result.domainsEnrollmentModes
              domainsDefaultRoleID := m.domainsDefaultRoleID }), calls)

/-- The hard-coded instance-settings reset sent by EnvironmentResource.Delete. -/
def instanceSettingsResetParams : UpdateParams :=
  { testMode := some false
    hibp := some true
    enhancedEmailDeliverability := some true
    supportEmail := some ""
    clerkJSVersion := some ""
    urlBasedSessionSyncing := some false
    developmentOrigin := some "" }

/-- The hard-coded restrictions reset sent by EnvironmentResource.Delete. -/
def restrictionsResetParams : UpdateRestrictionsParams :=
  { allowlist := some false
    blocklist := some false
    blockEmailSubaddresses := some false
    blockDisposableEmailDomains := some false
    ignoreDotsForGmailAddresses := some false }

/-- The hard-coded organization-settings reset sent by
EnvironmentResource.Delete. -/
def organizationSettingsResetParams : UpdateOrganizationSettingsParams :=
  { enabled := some false
    maxAllowedMemberships := none
    creatorRoleID := none
    adminDeleteEnabled := some false
    domainsEnabled := some false
    domainsEnrollmentModes := none
    domainsDefaultRoleID := none }

/-- EnvironmentResource.Delete: resets the three settings domains to their
hard-coded defaults in order; each failing reset adds a warning diagnostic
and the remaining resets are still attempted.  Returns (diagnostics, SDK
calls issued). -/
def EnvironmentDelete (remote : BackendRemote) (reg : Registry)
    (state : EnvironmentResourceModel) : List Diagnostic × List BackendCall :=
  let appID := state.applicationID.valueString
  let env := state.environment.valueString
  let step1 := UpdateInstanceSettings remote reg appID env instanceSettingsResetParams
  let d1 : List Diagnostic :=
    match step1.1 with
    | none => []
    | some err =>
        [⟨.warning, "Failed to reset instance settings",
          "Could not reset instance settings for " ++ appID ++ "/" ++ env ++
            ": " ++ err ++ ". The instance still exists in Clerk."⟩]
  let step2 := UpdateInstanceRestrictions remote reg appID env restrictionsResetParams
  let d2 : List Diagnostic :=
    match step2.1 with
    | .ok _ => []
    | .error err =>
        [⟨.warning, "Failed to reset instance restrictions",
          "Could not reset restrictions for " ++ appID ++ "/" ++ env ++
            ": " ++ err ++ ". The instance still exists in Clerk."⟩]
  let step3 := UpdateOrganizationSettings remote reg appID env
    organizationSettingsResetParams
  let d3 : List Diagnostic :=
    match step3.1 with
    | .ok _ => []
    | .error err =>
        [⟨.warning, "Failed to reset organization settings",
          "Could not reset organization settings for " ++ appID ++ "/" ++ env ++
            ": " ++ err ++ ". The instance still exists in Clerk."⟩]
  (d1 ++ d2 ++ d3, step1.2 ++ step2.2 ++ step3.2)

/-! ### Import (EnvironmentResource.ImportState) -/

/-- Split a character list at its first slash: the characters before it and
everything after it (none when no slash occurs). -/
def splitFirstSlash : List Char → Option (List Char × List Char)
  | [] => none
  | c :: rest =>
      if c = '/' then some ([], rest)
      else
        match splitFirstSlash rest with
        | none => none
        | some (l, r) => some (c :: l, r)

/-- strings.SplitN(s, "/", 2): at most two pieces, the second keeping any
further separators; the whole string when no separator occurs. -/
def splitN2 (s : String) : List String :=
  match splitFirstSlash s.data with
  | none => [s]
  | some (l, r) => [String.mk l, String.mk r]

/-- Split a character list on every slash (Go strings.Split semantics:
the empty list of characters yields one empty piece). -/
def splitAllSlashChars : List Char → List (List Char)
  | [] => [[]]
  | c :: rest =>
      if c = '/' then [] :: splitAllSlashChars rest
      else
        match splitAllSlashChars rest with
        | [] => [[c]]
        | g :: gs => (c :: g) :: gs

/-- strings.Split(s, "/"). -/
def splitAllSlash (s : String) : List String :=
  (splitAllSlashChars s.data).map String.mk

/-- The state attributes EnvironmentResource.ImportState sets on success. -/
structure ImportedEnvState where
  id : String
  applicationID : String
  environment : String
deriving Repr, DecidableEq

/-- EnvironmentResource.ImportState: splits the import identifier on the
first "/", rejects a missing or empty part, then rejects an environment
outside development/production; on success sets id to the whole identifier
and the two parts.  An error return sets no state attributes. -/
def EnvironmentImportState (reqID : String) : Except Diagnostic ImportedEnvState :=
  match splitN2 reqID with
  | [p0, p1] =>
      if p0 = "" ∨ p1 = "" then
        .error ⟨.error, "Invalid Import ID",
          "Expected format: \x7bapplication_id\x7d/\x7benvironment\x7d, got: " ++ reqID⟩
      else if p1 ≠ "development" ∧ p1 ≠ "production" then
        .error ⟨.error, "Invalid Environment",
          "Environment must be \"development\" or \"production\", got: " ++ p1⟩
      else
        .ok ⟨reqID, p0, p1⟩
  | _ =>
      .error ⟨.error, "Invalid Import ID",
        "Expected format: \x7bapplication_id\x7d/\x7benvironment\x7d, got: " ++ reqID⟩

/-! ## Organization resource import (modelled from the spec) -/

/-- The state attributes the organization ImportState sets on success. -/
structure ImportedOrgState where
  applicationID : String
  environment : String
  organizationID : String
deriving Repr, DecidableEq

/-- Modelled from the spec: the OrganizationResource.ImportState
implementation is not among the provided sources (only its acceptance tests
and documentation are).  Per the spec, the import identifier has the
composite form application_id/environment/organization_id and ImportState
splits it on "/" into exactly those three parts, rejects an identifier with
a missing or empty part, rejects an environment outside
development/production, and sets no state attributes on error. -/
def OrganizationImportState (reqID : String) : Except Diagnostic ImportedOrgState :=
  match splitAllSlash reqID with
  | [a, e, o] =>
      if a = "" ∨ e = "" ∨ o = "" then
        .error ⟨.error, "Invalid Import ID",
          "Expected format: \x7bapplication_id\x7d/\x7benvironment\x7d/\x7borganization_id\x7d, got: "
            ++ reqID⟩
      else if e ≠ "development" ∧ e ≠ "production" then
        .error ⟨.error, "Invalid Environment",
          "Environment must be \"development\" or \"production\", got: " ++ e⟩
      else
        .ok ⟨a, e, o⟩
  | _ =>
      .error ⟨.error, "Invalid Import ID",
        "Expected format: \x7bapplication_id\x7d/\x7benvironment\x7d/\x7borganization_id\x7d, got: "
          ++ reqID⟩

/-! ## Application resource (modelled from the spec)

The ApplicationResource implementation file is not among the provided
sources; only its acceptance tests, documentation and the Platform API
client it calls are.  Its delete and read behaviour is modelled from the
spec sentences about deletion protection and 404-on-read. -/

/-- The fields of the application resource model that decide delete/read
behaviour. -/
structure ApplicationResourceModel where
  id : TFVal String
  name : TFVal String
  deletionProtection : TFVal Bool
deriving Repr, DecidableEq

/-- A call issued to the Clerk Platform API by a resource adapter. -/
inductive PlatformCall where
  | deleteApplication (applicationID : String)
  | getApplication (applicationID : String) (includeSecretKeys : Bool)
deriving Repr, DecidableEq

/-- Modelled from the spec: ApplicationResource.Delete is not among the
provided sources.  Per the spec, deletion protection is enforced
client-side before issuing a delete call: when enabled, delete fails (an
error diagnostic) without contacting the API; when disabled, the delete
call is issued.  The remote argument is DeleteApplication's outcome. -/
def ApplicationDelete (remote : String → Option PlatformError)
    (state : ApplicationResourceModel) : List Diagnostic × List PlatformCall :=
  if state.deletionProtection = .value true then
    ([⟨.error, "Deletion Protection Enabled",
      "The application cannot be destroyed while deletion_protection is true. " ++
        "Set deletion_protection = false and apply before destroying."⟩], [])
  else
    let appID := state.id.valueString
    match remote appID with
    | some e =>
        ([⟨.error, "Error deleting Clerk application",
          match e with
          | .apiError _ body => body
          | .wrapped msg => msg⟩], [.deleteApplication appID])
    | none => ([], [.deleteApplication appID])

/-- Outcome of a resource Read. -/
inductive ReadOutcome where
  | removed
  | errored (d : Diagnostic)
  | updated (r : PlatformApplicationResponse)
deriving Repr, DecidableEq

/-- Modelled from the spec: ApplicationResource.Read is not among the
provided sources.  Per the spec, a read whose underlying GetApplication
call answers HTTP 404 removes the resource from state without raising an
error, and every other non-2xx status surfaces as an error diagnostic
attached to the operation; a 2xx response refreshes the state. -/
def ApplicationRead (decode : Decoder PlatformApplicationResponse)
    (resp : HttpResponse) : ReadOutcome :=
  match GetApplication decode resp with
  | .error (.apiError code body) =>
      if code = 404 then .removed
      else .errored ⟨.error, "Error reading Clerk application", body⟩
  | .error (.wrapped msg) =>
      .errored ⟨.error, "Error reading Clerk application", msg⟩
  | .ok result => .updated result

/-! ## Provider configuration (internal/provider/provider.go) -/

/-- The ClerkClient NewClerkClient builds: the resolved Platform API key and
an empty backend-client registry. -/
structure ClerkClient where
  platformAPIKey : String
  backendClients : Registry
deriving Repr, DecidableEq

/-- NewClerkClient creates a new ClerkClient with the given Platform API key
and an empty backendClients map. -/
def NewClerkClient (platformAPIKey : String) : ClerkClient :=
  { platformAPIKey := platformAPIKey, backendClients := [] }

/-- The outcome of ClerkProvider.Configure: diagnostics plus the values
stored in resp.ResourceData and resp.DataSourceData (none when left unset). -/
structure ConfigureResult where
  diagnostics : List Diagnostic
  resourceData : Option ClerkClient
  dataSourceData : Option ClerkClient
deriving Repr, DecidableEq

/-- The diagnostic Configure adds when the resolved Platform API key is
empty. -/
def missingKeyDiag : Diagnostic :=
  ⟨.error, "Missing Platform API Key",
    "The Clerk Platform API key must be set in the provider configuration " ++
      "block (platform_api_key) or via the CLERK_PLATFORM_API_KEY environment variable."⟩

/-- ClerkProvider.Configure: resolves the Platform API key, letting a
non-null non-unknown configuration value override the
CLERK_PLATFORM_API_KEY environment variable (envKey is os.Getenv's result,
"" when the variable is unset); an empty resolved key is a hard error and
stores no client, otherwise a single new client is stored in both
ResourceData and DataSourceData. -/
def Configure (envKey : String) (configKey : TFVal String) : ConfigureResult :=
  let platformAPIKey :=
    match configKey with
    | .value s => s
    | _ => envKey
  if platformAPIKey = "" then
    { diagnostics := [missingKeyDiag]
      resourceData := none
      dataSourceData := none }
  else
    let clerkClient := NewClerkClient platformAPIKey
    { diagnostics := []
      resourceData := some clerkClient
      dataSourceData := some clerkClient }

/-- A Backend API remote whose every endpoint succeeds with fixed data. -/
def trivialRemote : BackendRemote :=
  { updateInstance := fun _ _ => none
    updateRestrictions := fun _ _ => .ok ⟨false, false, false, false, false⟩
    updateOrgSettings := fun _ _ => .ok ⟨false, 0, "", false, false, [], ""⟩
    orgCreate := fun _ _ => .ok ⟨"org_1", "Acme", "acme", 0, false, 0, 0⟩
    orgGet := fun _ _ => .ok ⟨"org_1", "Acme", "acme", 0, false, 0, 0⟩
    orgUpdate := fun _ _ _ => .ok ⟨"org_1", "Acme", "acme", 0, false, 0, 0⟩
    orgDelete := fun _ i => .ok ⟨i, true⟩ }

/-! ## Claims -/

/-- C1 counterexample: the registry joins the pair into the single string
appID ++ "/" ++ environment, so after registering application "a/b" in
environment "c", looking up application "a" in environment "b/c" — a pair
that was never registered — returns that stored configuration instead of
the error the claim requires. -/
theorem C1_never_registered_counterexample :
    (∀ op ∈ [("a/b", ("c", "sk"))], ¬(op.1 = "a" ∧ op.2.1 = "b/c")) ∧
    GetBackendConfig (registerAll [("a/b", ("c", "sk"))]) "a" "b/c" =
      .ok { key := some "sk" } := by
  constructor
  · decide
  · rfl

/-- C1 (amended): registering a pair and then looking the same pair up
returns the stored configuration whose key is that secret key; and a lookup
whose slash-joined key differs from the joined key of every registered pair
(in particular, any unregistered pair when no application id contains "/")
returns no configuration and the error text, which names both the
application id and the environment. -/
theorem C1_register_then_lookup :
    (∀ (reg : Registry) (a e k : String),
        GetBackendConfig (RegisterBackendClient reg a e k) a e =
          .ok { key := some k }) ∧
    (∀ (ops : List (String × String × String)) (a e : String),
        (∀ op ∈ ops, backendClientKey op.1 op.2.1 ≠ backendClientKey a e) →
        GetBackendConfig (registerAll ops) a e =
          .error (noBackendClientMsg a e)) ∧
    (∀ a e : String, ∃ s t u : String,
        noBackendClientMsg a e = s ++ a ++ t ++ e ++ u) := by
  refine ⟨?_, ?_, ?_⟩
  · intro reg a e k
    simp [GetBackendConfig, findConfig_register_self]
  · intro ops a e h
    have hnone := findConfig_registerAll_aux ops [] (backendClientKey a e) h rfl
    simp only [registerAll] at *
    simp [GetBackendConfig, hnone]
  · intro a e
    exact ⟨"no backend client registered for application \"",
      "\" environment \"", "\"", rfl⟩

/-- Witness for C1_register_then_lookup at concrete inputs. -/
theorem C1_register_then_lookup_witness :
    GetBackendConfig (RegisterBackendClient [] "app_1" "development" "sk_test")
        "app_1" "development" = .ok { key := some "sk_test" } ∧
    GetBackendConfig (registerAll [("app_2", ("production", "sk_2"))])
        "app_1" "development" = .error (noBackendClientMsg "app_1" "development") :=
  ⟨C1_register_then_lookup.1 [] "app_1" "development" "sk_test",
   C1_register_then_lookup.2.1 [("app_2", ("production", "sk_2"))]
     "app_1" "development" (by decide)⟩

/-- C2: when no registry entry exists for the (application id, environment)
key, every per-instance operation returns, immediately and without issuing
any Backend API call, an error that wraps the registry-miss error. -/
theorem C2_registry_miss_blocks_backend_calls
    (remote : BackendRemote) (reg : Registry) (a e : String)
    (h : findConfig reg (backendClientKey a e) = none) :
    (∀ p, UpdateInstanceSettings remote reg a e p =
        (some (resolvingMsg a e (noBackendClientMsg a e)), [])) ∧
    (∀ p, UpdateInstanceRestrictions remote reg a e p =
        (.error (resolvingMsg a e (noBackendClientMsg a e)), [])) ∧
    (∀ p, UpdateOrganizationSettings remote reg a e p =
        (.error (resolvingMsg a e (noBackendClientMsg a e)), [])) ∧
    (∀ p, CreateOrganization remote reg a e p =
        (.error (resolvingMsg a e (noBackendClientMsg a e)), [])) ∧
    (∀ s, GetOrganization remote reg a e s =
        (.error (resolvingMsg a e (noBackendClientMsg a e)), [])) ∧
    (∀ i p, UpdateOrganization remote reg a e i p =
        (.error (resolvingMsg a e (noBackendClientMsg a e)), [])) ∧
    (∀ i, DeleteOrganization remote reg a e i =
        (.error (resolvingMsg a e (noBackendClientMsg a e)), [])) := by
  have hg : GetBackendConfig reg a e = .error (noBackendClientMsg a e) := by
    simp [GetBackendConfig, h]
  refine ⟨?_, ?_, ?_, ?_, ?_, ?_, ?_⟩ <;> intros <;>
    simp [UpdateInstanceSettings, UpdateInstanceRestrictions,
      UpdateOrganizationSettings, CreateOrganization, GetOrganization,
      UpdateOrganization, DeleteOrganization, GetInstanceSettingsClient, hg]

/-- Witness for C2_registry_miss_blocks_backend_calls on a fresh client. -/
theorem C2_registry_miss_witness :
    UpdateInstanceSettings trivialRemote [] "app_1" "development"
        ⟨none, none, none, none, none, none, none⟩ =
      (some (resolvingMsg "app_1" "development"
        (noBackendClientMsg "app_1" "development")), []) ∧
    DeleteOrganization trivialRemote [] "app_1" "development" "org_1" =
      (.error (resolvingMsg "app_1" "development"
        (noBackendClientMsg "app_1" "development")), []) := by
  have h := C2_registry_miss_blocks_backend_calls trivialRemote []
    "app_1" "development" rfl
  exact ⟨h.1 _, h.2.2.2.2.2.2 _⟩

/-- C3: a Platform API response with HTTP status outside [200, 300) makes
platformRequest — and through it each of the five application operations —
return the typed PlatformAPIError carrying exactly that status code and the
raw response body and no data, while a status inside [200, 300) returns the
response body with no error. -/
theorem C3_platform_status_dispatch (c : Int) (b : String)
    (decodeApp : Decoder PlatformApplicationResponse)
    (decodeDel : Decoder PlatformDeletedObjectResponse)
    (decodeList : Decoder (List PlatformApplicationResponse)) (appID : String) :
    (c < 200 ∨ 300 ≤ c →
      platformRequest ⟨c, b⟩ = .error (.apiError c b) ∧
      CreateApplication decodeApp ⟨c, b⟩ = .error (.apiError c b) ∧
      GetApplication decodeApp ⟨c, b⟩ = .error (.apiError c b) ∧
      UpdateApplication decodeApp ⟨c, b⟩ = .error (.apiError c b) ∧
      DeleteApplication decodeDel appID ⟨c, b⟩ = some (.apiError c b) ∧
      ListApplications decodeList ⟨c, b⟩ = .error (.apiError c b)) ∧
    (200 ≤ c ∧ c < 300 → platformRequest ⟨c, b⟩ = .ok b) := by
  constructor
  · intro h
    have hreq : platformRequest ⟨c, b⟩ = .error (.apiError c b) := by
      simp [platformRequest, h]
    exact ⟨hreq,
      by simp [CreateApplication, hreq],
      by simp [GetApplication, hreq],
      by simp [UpdateApplication, hreq],
      by simp [DeleteApplication, hreq],
      by simp [ListApplications, hreq]⟩
  · intro h
    simp [platformRequest, not_lt.mpr h.1, not_le.mpr h.2]

/-- Witness for C3_platform_status_dispatch: a 422 error response and a 200
success response. -/
theorem C3_platform_status_dispatch_witness :
    platformRequest ⟨422, "bad"⟩ = .error (.apiError 422 "bad") ∧
    platformRequest ⟨200, "payload"⟩ = .ok "payload" :=
  ⟨((C3_platform_status_dispatch 422 "bad" (fun _ => none) (fun _ => none)
      (fun _ => none) "app_1").1 (by norm_num)).1,
   (C3_platform_status_dispatch 200 "payload" (fun _ => none) (fun _ => none)
      (fun _ => none) "app_1").2 (by norm_num)⟩

/-- C4: when the deletion_protection attribute is true, Delete adds an error
diagnostic and issues no Platform API call; when it is false, Delete
proceeds and issues the delete call for the application id. -/
theorem C4_deletion_protection (remote : String → Option PlatformError)
    (state : ApplicationResourceModel) :
    (state.deletionProtection = .value true →
      (∃ d ∈ (ApplicationDelete remote state).1, d.severity = .error) ∧
      (ApplicationDelete remote state).2 = []) ∧
    (state.deletionProtection = .value false →
      (ApplicationDelete remote state).2 =
        [.deleteApplication state.id.valueString]) := by
  constructor
  · intro h
    refine ⟨⟨⟨.error, "Deletion Protection Enabled",
      "The application cannot be destroyed while deletion_protection is true. " ++
        "Set deletion_protection = false and apply before destroying."⟩, ?_, rfl⟩, ?_⟩ <;>
      simp [ApplicationDelete, h]
  · intro h
    have hne : state.deletionProtection ≠ .value true := by
      simp [h]
    simp only [ApplicationDelete, if_neg hne]
    cases remote state.id.valueString <;> simp

/-- Witness for C4_deletion_protection: a protected and an unprotected
application. -/
theorem C4_deletion_protection_witness :
    ((ApplicationDelete (fun _ => none)
        ⟨.value "app_1", .value "My App", .value true⟩).2 = [] ∧
      ∃ d ∈ (ApplicationDelete (fun _ => none)
        ⟨.value "app_1", .value "My App", .value true⟩).1, d.severity = .error) ∧
    (ApplicationDelete (fun _ => none)
        ⟨.value "app_1", .value "My App", .value false⟩).2 =
      [.deleteApplication "app_1"] := by
  have h1 := (C4_deletion_protection (fun _ => none)
    ⟨.value "app_1", .value "My App", .value true⟩).1 rfl
  have h2 := (C4_deletion_protection (fun _ => none)
    ⟨.value "app_1", .value "My App", .value false⟩).2 rfl
  exact ⟨⟨h1.2, h1.1⟩, h2⟩

/-- C5: a read whose underlying GetApplication call answers HTTP 404 removes
the resource from state with no error, and every other non-2xx status on
read surfaces as an error diagnostic. -/
theorem C5_read_404_removes_state (decode : Decoder PlatformApplicationResponse)
    (resp : HttpResponse) :
    (resp.statusCode = 404 → ApplicationRead decode resp = .removed) ∧
    ((resp.statusCode < 200 ∨ 300 ≤ resp.statusCode) → resp.statusCode ≠ 404 →
      ∃ d, ApplicationRead decode resp = .errored d ∧ d.severity = .error) := by
  obtain ⟨c, b⟩ := resp
  constructor
  · intro h
    subst h
    simp [ApplicationRead, GetApplication, platformRequest]
  · intro h hne
    have hreq : platformRequest ⟨c, b⟩ = .error (.apiError c b) := by
      simp [platformRequest, h]
    refine ⟨⟨.error, "Error reading Clerk application", b⟩, ?_, rfl⟩
    simp only [ApplicationRead, GetApplication, hreq]
    simp at hne
    simp [hne]

/-- Witness for C5_read_404_removes_state: a 404 and a 500 response. -/
theorem C5_read_404_witness :
    ApplicationRead (fun _ => none) ⟨404, "not found"⟩ = .removed ∧
    ∃ d, ApplicationRead (fun _ => none) ⟨500, "boom"⟩ = .errored d ∧
      d.severity = .error :=
  ⟨(C5_read_404_removes_state (fun _ => none) ⟨404, "not found"⟩).1 rfl,
   (C5_read_404_removes_state (fun _ => none) ⟨500, "boom"⟩).2
     (by norm_num) (by norm_num)⟩

/-- C6: the organization import identifier "app_1/development/org_1" splits
into exactly application id app_1, environment development, organization id
org_1; an import identifier whose environment part is outside
development/production, or with a missing or empty part, yields an error
diagnostic and no state attributes (for both ImportState implementations);
and a valid environment-resource identifier sets id to the whole
identifier, application_id to the first part and environment to the
second. -/
theorem C6_import_identifier_parsing :
    OrganizationImportState "app_1/development/org_1" =
      .ok ⟨"app_1", "development", "org_1"⟩ ∧
    (∀ (reqID a e o : String), splitAllSlash reqID = [a, e, o] →
      ¬(e = "development" ∨ e = "production") →
      ∃ d, OrganizationImportState reqID = .error d ∧ d.severity = .error) ∧
    (∀ reqID : String, (splitAllSlash reqID).length ≠ 3 →
      ∃ d, OrganizationImportState reqID = .error d ∧ d.severity = .error) ∧
    (∀ (reqID a e o : String), splitAllSlash reqID = [a, e, o] →
      (a = "" ∨ e = "" ∨ o = "") →
      ∃ d, OrganizationImportState reqID = .error d ∧ d.severity = .error) ∧
    (∀ (reqID p0 p1 : String), splitN2 reqID = [p0, p1] → p0 ≠ "" →
      (p1 = "development" ∨ p1 = "production") →
      EnvironmentImportState reqID = .ok ⟨reqID, p0, p1⟩) ∧
    (∀ (reqID p0 p1 : String), splitN2 reqID = [p0, p1] →
      ¬(p1 = "development" ∨ p1 = "production") →
      ∃ d, EnvironmentImportState reqID = .error d ∧ d.severity = .error) := by
  refine ⟨rfl, ?_, ?_, ?_, ?_, ?_⟩
  · intro reqID a e o h hne
    simp only [OrganizationImportState, h]
    by_cases hemp : a = "" ∨ e = "" ∨ o = ""
    · rw [if_pos hemp]
      exact ⟨_, rfl, rfl⟩
    · rw [if_neg hemp,
        if_pos ⟨fun hd => hne (Or.inl hd), fun hp => hne (Or.inr hp)⟩]
      exact ⟨_, rfl, rfl⟩
  · intro reqID hlen
    rcases hs : splitAllSlash reqID with _ | ⟨a, _ | ⟨b, _ | ⟨c, _ | ⟨d, rest⟩⟩⟩⟩
    · simp only [OrganizationImportState, hs]
      exact ⟨_, rfl, rfl⟩
    · simp only [OrganizationImportState, hs]
      exact ⟨_, rfl, rfl⟩
    · simp only [OrganizationImportState, hs]
      exact ⟨_, rfl, rfl⟩
    · rw [hs] at hlen
      simp at hlen
    · simp only [OrganizationImportState, hs]
      exact ⟨_, rfl, rfl⟩
  · intro reqID a e o h hemp
    simp only [OrganizationImportState, h]
    rw [if_pos hemp]
    exact ⟨_, rfl, rfl⟩
  · intro reqID p0 p1 h hp0 hvalid
    have hp1 : p1 ≠ "" := by
      rcases hvalid with h1 | h1 <;> simp [h1]
    simp only [EnvironmentImportState, h]
    rw [if_neg (by simp [hp0, hp1]),
      if_neg (fun hcon => by
        rcases hvalid with h1 | h1
        exacts [hcon.1 h1, hcon.2 h1])]
  · intro reqID p0 p1 h hne
    simp only [EnvironmentImportState, h]
    by_cases hemp : p0 = "" ∨ p1 = ""
    · rw [if_pos hemp]
      exact ⟨_, rfl, rfl⟩
    · rw [if_neg hemp,
        if_pos ⟨fun h1 => hne (Or.inl h1), fun h2 => hne (Or.inr h2)⟩]
      exact ⟨_, rfl, rfl⟩

/-- Witness for C6_import_identifier_parsing at concrete identifiers:
a rejected environment value, a wrong part count, an empty part, a valid
environment import and an invalid environment import. -/
theorem C6_import_identifier_parsing_witness :
    (∃ d, OrganizationImportState "app_1/staging/org_1" = .error d ∧
      d.severity = .error) ∧
    (∃ d, OrganizationImportState "app_1/development" = .error d ∧
      d.severity = .error) ∧
    (∃ d, OrganizationImportState "app_1//org_1" = .error d ∧
      d.severity = .error) ∧
    EnvironmentImportState "app_1/development" = .ok ⟨"app_1/development", "app_1", "development"⟩ ∧
    (∃ d, EnvironmentImportState "app_1/staging" = .error d ∧
      d.severity = .error) :=
  ⟨C6_import_identifier_parsing.2.1 "app_1/staging/org_1" "app_1" "staging" "org_1"
      rfl (by decide),
   C6_import_identifier_parsing.2.2.1 "app_1/development" (by decide),
   C6_import_identifier_parsing.2.2.2.1 "app_1//org_1" "app_1" "" "org_1"
      rfl (by decide),
   C6_import_identifier_parsing.2.2.2.2.1 "app_1/development" "app_1" "development"
      rfl (by decide) (by decide),
   C6_import_identifier_parsing.2.2.2.2.2 "app_1/staging" "app_1" "staging"
      rfl (by decide)⟩

/-- C7: with a registered backend client, EnvironmentResource.Delete issues
exactly the three reset calls, in order, with the hard-coded default values
(instance settings with test_mode false, hibp true,
enhanced_email_deliverability true, empty support_email, clerk_js_version
and development_origin, url_based_session_syncing false; all five
restrictions false; organization settings enabled, admin_delete_enabled and
domains_enabled false) and never a destroy call; every diagnostic it adds
is a warning, and each failing reset contributes its warning while the
remaining resets are still attempted. -/
theorem C7_environment_delete_resets (remote : BackendRemote) (reg : Registry)
    (state : EnvironmentResourceModel) (config : ClientConfig)
    (h : findConfig reg (backendClientKey state.applicationID.valueString
      state.environment.valueString) = some config) :
    instanceSettingsResetParams =
      ⟨some false, some true, some true, some "", some "", some false, some ""⟩ ∧
    restrictionsResetParams =
      ⟨some false, some false, some false, some false, some false⟩ ∧
    organizationSettingsResetParams =
      ⟨some false, none, none, some false, some false, none, none⟩ ∧
    (EnvironmentDelete remote reg state).2 =
      [.updateInstanceSettings config instanceSettingsResetParams,
       .updateRestrictions config restrictionsResetParams,
       .updateOrganizationSettings config organizationSettingsResetParams] ∧
    (∀ d ∈ (EnvironmentDelete remote reg state).1, d.severity = .warning) ∧
    (∀ err, remote.updateInstance config instanceSettingsResetParams = some err →
      ∃ d ∈ (EnvironmentDelete remote reg state).1,
        d.summary = "Failed to reset instance settings") ∧
    (∀ err, remote.updateRestrictions config restrictionsResetParams = .error err →
      ∃ d ∈ (EnvironmentDelete remote reg state).1,
        d.summary = "Failed to reset instance restrictions") ∧
    (∀ err, remote.updateOrgSettings config organizationSettingsResetParams = .error err →
      ∃ d ∈ (EnvironmentDelete remote reg state).1,
        d.summary = "Failed to reset organization settings") := by
  have hc : GetInstanceSettingsClient reg state.applicationID.valueString
      state.environment.valueString = .ok config := by
    simp [GetInstanceSettingsClient, GetBackendConfig, h]
  refine ⟨rfl, rfl, rfl, ?_, ?_, ?_, ?_, ?_⟩ <;>
    rcases hr1 : remote.updateInstance config instanceSettingsResetParams
      with _ | err1 <;>
    rcases hr2 : remote.updateRestrictions config restrictionsResetParams
      with err2 | ok2 <;>
    rcases hr3 : remote.updateOrgSettings config organizationSettingsResetParams
      with err3 | ok3 <;>
    simp [EnvironmentDelete, UpdateInstanceSettings, UpdateInstanceRestrictions,
      UpdateOrganizationSettings, hc, hr1, hr2, hr3]

/-- Witness for C7_environment_delete_resets: a registered client whose
restrictions reset fails. -/
theorem C7_environment_delete_resets_witness :
    (EnvironmentDelete
        { trivialRemote with updateRestrictions := fun _ _ => .error "boom" }
        (RegisterBackendClient [] "app_1" "development" "sk_test")
        { id := .value "app_1/development"
          applicationID := .value "app_1"
          environment := .value "development"
          testMode := .null, hibp := .null, enhancedEmailDeliverability := .null
          supportEmail := .null, clerkJSVersion := .null
          urlBasedSessionSyncing := .null, developmentOrigin := .null
          restrictions := .null, organizationSettings := .null }).2 =
      [.updateInstanceSettings { key := some "sk_test" } instanceSettingsResetParams,
       .updateRestrictions { key := some "sk_test" } restrictionsResetParams,
       .updateOrganizationSettings { key := some "sk_test" }
         organizationSettingsResetParams] ∧
    (∀ d ∈ (EnvironmentDelete
        { trivialRemote with updateRestrictions := fun _ _ => .error "boom" }
        (RegisterBackendClient [] "app_1" "development" "sk_test")
        { id := .value "app_1/development"
          applicationID := .value "app_1"
          environment := .value "development"
          testMode := .null, hibp := .null, enhancedEmailDeliverability := .null
          supportEmail := .null, clerkJSVersion := .null
          urlBasedSessionSyncing := .null, developmentOrigin := .null
          restrictions := .null, organizationSettings := .null }).1,
      d.severity = .warning) := by
  have h := C7_environment_delete_resets
    { trivialRemote with updateRestrictions := fun _ _ => .error "boom" }
    (RegisterBackendClient [] "app_1" "development" "sk_test")
    { id := .value "app_1/development"
      applicationID := .value "app_1"
      environment := .value "development"
      testMode := .null, hibp := .null, enhancedEmailDeliverability := .null
      supportEmail := .null, clerkJSVersion := .null
      urlBasedSessionSyncing := .null, developmentOrigin := .null
      restrictions := .null, organizationSettings := .null }
    { key := some "sk_test" } rfl
  exact ⟨h.2.2.2.1, h.2.2.2.2.1⟩

/-- C8: applyOrganizationSettings writes the enabled and
max_allowed_memberships values from the API response into the plan block
(preserving the configured role-id fields), and EnvironmentResource.Read
returns the stored state unchanged while issuing no Backend API call, so
the last-applied configuration is authoritative and an apply with
enabled=true, max_allowed_memberships=10 echoed by the API round-trips with
no drift. -/
theorem C8_org_settings_round_trip (remote : BackendRemote) (reg : Registry)
    (appID env : String) (m : OrganizationSettingsModel)
    (result : OrganizationSettings)
    (h : (UpdateOrganizationSettings remote reg appID env
      (buildOrgSettingsParams m)).1 = .ok result) :
    (applyOrganizationSettings remote reg appID env (.value m)).1 =
      .ok (.value
        { enabled := .value result.enabled
          maxAllowedMemberships := .value result.maxAllowedMemberships
          creatorRoleID := m.creatorRoleID
          adminDeleteEnabled := .value result.adminDeleteEnabled
          domainsEnabled := .value result.domainsEnabled
          domainsEnrollmentModes := .value result.domainsEnrollmentModes
          domainsDefaultRoleID := m.domainsDefaultRoleID }) ∧
    (∀ st : EnvironmentResourceModel, EnvironmentRead st = (st, [])) := by
  constructor
  · rcases hU : UpdateOrganizationSettings remote reg appID env
      (buildOrgSettingsParams m) with ⟨r, cs⟩
    rw [hU] at h
    have h' : r = .ok result := h
    subst h'
    simp [applyOrganizationSettings, hU]
  · intro st
    rfl

/-- Witness for C8_org_settings_round_trip: a registered client whose API
echoes enabled=true, max_allowed_memberships=10. -/
theorem C8_org_settings_round_trip_witness :
    (applyOrganizationSettings
        { trivialRemote with
            updateOrgSettings := fun _ _ => .ok ⟨true, 10, "", false, false, [], ""⟩ }
        (RegisterBackendClient [] "app_1" "development" "sk_test")
        "app_1" "development"
        (.value ⟨.value true, .value 10, .null, .null, .null, .null, .null⟩)).1 =
      .ok (.value
        { enabled := .value true
          maxAllowedMemberships := .value 10
          creatorRoleID := .null
          adminDeleteEnabled := .value false
          domainsEnabled := .value false
          domainsEnrollmentModes := .value []
          domainsDefaultRoleID := .null }) :=
  (C8_org_settings_round_trip
    { trivialRemote with
        updateOrgSettings := fun _ _ => .ok ⟨true, 10, "", false, false, [], ""⟩ }
    (RegisterBackendClient [] "app_1" "development" "sk_test")
    "app_1" "development"
    ⟨.value true, .value 10, .null, .null, .null, .null, .null⟩
    ⟨true, 10, "", false, false, [], ""⟩ rfl).1

/-- C9: GetApplication and ListApplications attach the query parameter
include_secret_keys=true exactly when includeSecretKeys is true; with the
flag false the request carries no query parameters at all. -/
theorem C9_include_secret_keys_query (applicationID : String) :
    (GetApplicationRequest applicationID true).query =
      [("include_secret_keys", "true")] ∧
    (GetApplicationRequest applicationID false).query = [] ∧
    (ListApplicationsRequest true).query = [("include_secret_keys", "true")] ∧
    (ListApplicationsRequest false).query = [] :=
  ⟨rfl, rfl, rfl, rfl⟩

/-- C10: Configure lets a non-null, non-unknown platform_api_key
configuration value take precedence over the CLERK_PLATFORM_API_KEY
environment variable, errors with "Missing Platform API Key" and stores no
client when the resolved key is empty, and otherwise stores one new client
holding exactly the resolved key in both ResourceData and DataSourceData. -/
theorem C10_configure_credential_resolution (envKey : String)
    (configKey : TFVal String) :
    ((configKey = .null ∨ configKey = .unknown) →
      Configure envKey configKey = Configure envKey (.value envKey) ∨ envKey = "") ∧
    (∀ s, configKey = .value s → s ≠ "" →
      Configure envKey configKey =
        { diagnostics := []
          resourceData := some (NewClerkClient s)
          dataSourceData := some (NewClerkClient s) } ∧
      (NewClerkClient s).platformAPIKey = s) ∧
    (∀ s, configKey = .value s → s = "" →
      (Configure envKey configKey).resourceData = none ∧
      (Configure envKey configKey).dataSourceData = none ∧
      ∃ d ∈ (Configure envKey configKey).diagnostics,
        d.severity = .error ∧ d.summary = "Missing Platform API Key") ∧
    ((configKey = .null ∨ configKey = .unknown) → envKey = "" →
      (Configure envKey configKey).resourceData = none ∧
      (Configure envKey configKey).dataSourceData = none ∧
      ∃ d ∈ (Configure envKey configKey).diagnostics,
        d.severity = .error ∧ d.summary = "Missing Platform API Key") ∧
    ((configKey = .null ∨ configKey = .unknown) → envKey ≠ "" →
      Configure envKey configKey =
        { diagnostics := []
          resourceData := some (NewClerkClient envKey)
          dataSourceData := some (NewClerkClient envKey) }) := by
  refine ⟨?_, ?_, ?_, ?_, ?_⟩
  · rintro (h | h) <;> subst h <;> exact Or.inl rfl
  · rintro s rfl hs
    exact ⟨by simp [Configure, hs], rfl⟩
  · rintro s rfl rfl
    exact ⟨rfl, rfl, missingKeyDiag, by simp [Configure], rfl, rfl⟩
  · rintro (h | h) rfl <;> subst h <;>
      exact ⟨rfl, rfl, missingKeyDiag, by simp [Configure], rfl, rfl⟩
  · rintro (h | h) he <;> subst h <;> simp [Configure, he]

/-- Witness for C10_configure_credential_resolution: a configured key
overriding a set environment variable, an empty configured key, and the
null-config empty-environment case. -/
theorem C10_configure_witness :
    (Configure "env_key" (.value "config_key") =
      { diagnostics := []
        resourceData := some (NewClerkClient "config_key")
        dataSourceData := some (NewClerkClient "config_key") } ∧
      (NewClerkClient "config_key").platformAPIKey = "config_key") ∧
    ((Configure "env_key" (.value "")).resourceData = none ∧
      (Configure "env_key" (.value "")).dataSourceData = none ∧
      ∃ d ∈ (Configure "env_key" (.value "")).diagnostics,
        d.severity = .error ∧ d.summary = "Missing Platform API Key") ∧
    ((Configure "" .null).resourceData = none ∧
      (Configure "" .null).dataSourceData = none ∧
      ∃ d ∈ (Configure "" .null).diagnostics,
        d.severity = .error ∧ d.summary = "Missing Platform API Key") ∧
    Configure "env_key" .unknown =
      { diagnostics := []
        resourceData := some (NewClerkClient "env_key")
        dataSourceData := some (NewClerkClient "env_key") } :=
  ⟨(C10_configure_credential_resolution "env_key" (.value "config_key")).2.1
      "config_key" rfl (by decide),
   (C10_configure_credential_resolution "env_key" (.value "")).2.2.1 "" rfl rfl,
   (C10_configure_credential_resolution "" .null).2.2.2.1 (Or.inl rfl) rfl,
   (C10_configure_credential_resolution "env_key" .unknown).2.2.2.2
      (Or.inr rfl) (by decide)⟩

end Clerk
